import Mathlib

/-!
Verification of the jira-issue-creator synchronization engine.

This file is a shallow embedding of `src/index.js` (the GitHub Action that
creates or updates a Jira story and keeps it in sync with a caller-supplied
summary and description).  Pure helpers of the script (`removeTimestamp`,
`getNewDescription`, trailer construction) become Lean functions on strings;
the HTTP transport (`sendHttpRequest`) becomes a recursion over an abstract
stream of network events; the orchestrator (`createOrUpdateJiraStory`)
becomes a pure function from a configuration and a remote-service
environment (the responses the Jira server would return to each query) to
the list of mutating calls it issues, the `issue_key` output it sets and the
warnings it emits.  JSON parsing of 2xx bodies is not modelled: a 2xx
response resolves with its body, which is all the claims here depend on.
-/

namespace JiraSync

/-! ### Description reconciler (src/index.js lines 142-156, 206-211) -/

/-- The literal part of the regex `/\n\nLast updated: .+$/` in
`removeTimestamp` (src/index.js line 143). -/
def lastUpdatedMarker : List Char := '\n' :: '\n' :: "Last updated: ".data

/-- Which characters the JavaScript regex `.` matches: everything except the
line terminators `\n`, `\r`, U+2028 and U+2029. -/
def jsDot (c : Char) : Bool :=
  c != '\n' && c != '\r' && c != Char.ofNat 0x2028 && c != Char.ofNat 0x2029

/-- `trailerAt l` holds when the regex `/\n\nLast updated: .+$/` matches the
whole of `l`: the marker is a prefix and the remainder is a nonempty run of
`.`-matchable characters (so the match reaches the end of the string, as
forced by the `$` anchor). -/
def trailerAt (l : List Char) : Bool :=
  lastUpdatedMarker.isPrefixOf l &&
    !(l.drop lastUpdatedMarker.length).isEmpty &&
    (l.drop lastUpdatedMarker.length).all jsDot

/-- `hasTrailerMatch l` holds when the regex matches somewhere in `l`
(every match necessarily runs to the end of the string). -/
def hasTrailerMatch : List Char → Bool
  | [] => false
  | c :: cs => trailerAt (c :: cs) || hasTrailerMatch cs

/-- `description.replace(/\n\nLast updated: .+$/, "")` on a character list:
drop the leftmost (and, because `.+` excludes newlines, only possible)
match, which is a suffix of the string; leave the string unchanged when the
regex does not match. -/
def removeTimestampL : List Char → List Char
  | [] => []
  | c :: cs => if trailerAt (c :: cs) then [] else c :: removeTimestampL cs

/-- `removeTimestamp` from src/index.js lines 142-144 (identical in
src/unnamed/part_001 lines 168-170). -/
def removeTimestamp (description : String) : String :=
  String.mk (removeTimestampL description.data)

/-- The description the orchestrator actually writes: the text followed by
the timestamp trailer, as built at src/index.js lines 242, 257 and 276
(`` `${text}\n\nZuletzt aktualisiert: ${formattedTimestamp}` ``). -/
def withTrailer (text timestamp : String) : String :=
  text ++ "\n\nZuletzt aktualisiert: " ++ timestamp

/-- Equality of two descriptions modulo the trailer, exactly as compared at
src/index.js lines 258-261: `removeTimestamp(a) !== removeTimestamp(b)`
negated. -/
def equalModuloTrailer (a b : String) : Bool :=
  removeTimestamp a == removeTimestamp b

/-- JavaScript `String.prototype.split("\n")` on a character list.  An empty
string yields `[""]`, mirroring JavaScript. -/
def splitLinesL : List Char → List (List Char)
  | [] => [[]]
  | c :: cs =>
    match splitLinesL cs with
    | [] => [[]]
    | l :: ls => if c = '\n' then [] :: l :: ls else (c :: l) :: ls

/-- Line splitting on strings: `text.split("\n")`. -/
def linesOf (s : String) : List String :=
  (splitLinesL s.data).map String.mk

/-- JavaScript `Array.prototype.join("\n")`. -/
def joinLines : List String → String
  | [] => ""
  | [l] => l
  | l :: ls => l ++ "\n" ++ joinLines ls

/-- `getNewDescription` from src/index.js lines 206-211: split both texts on
line boundaries and keep the incoming lines that do not occur in the
existing text's lines, joined back with line breaks. -/
def getNewDescription (existingDescription newDescription : String) : String :=
  let existingLines := linesOf existingDescription
  let newLines := linesOf newDescription
  let newContent := newLines.filter (fun line => !(existingLines.contains line))
  joinLines newContent

/-- The characters JavaScript `String.prototype.trim` removes: WhiteSpace
and LineTerminator code points. -/
def jsWhitespace (c : Char) : Bool :=
  c == ' ' || c == '\t' || c == '\n' || c == '\r' ||
  c == Char.ofNat 0x0B || c == Char.ofNat 0x0C || c == Char.ofNat 0xA0 ||
  c == Char.ofNat 0x1680 ||
  (Char.ofNat 0x2000 ≤ c && c ≤ Char.ofNat 0x200A) ||
  c == Char.ofNat 0x2028 || c == Char.ofNat 0x2029 ||
  c == Char.ofNat 0x202F || c == Char.ofNat 0x205F ||
  c == Char.ofNat 0x3000 || c == Char.ofNat 0xFEFF

/-- JavaScript `text.trim()`: drop leading and trailing whitespace. -/
def jsTrim (s : String) : String :=
  String.mk (((s.data.dropWhile jsWhitespace).reverse.dropWhile jsWhitespace).reverse)

/-! ### Transport (src/index.js lines 40-106) -/

/-- What the network does on one attempt: either an HTTP response with a
status code and a body, or a connection-level error. -/
inductive NetEvent where
  | response (status : Nat) (body : String)
  | connError (message : String)
deriving Repr, DecidableEq

/-- How one logical `sendHttpRequest` call ends.  A 2xx response resolves
with its body (`success`); any other non-retried status rejects with the
status and body (`httpError`, the `HTTP ${status}: ${body}` rejection);
a connection error with no budget left rejects with `transportError`. -/
inductive HttpResult where
  | success (body : String)
  | httpError (status : Nat) (body : String)
  | transportError (message : String)
deriving Repr, DecidableEq

/-- `sendHttpRequest` from src/index.js lines 40-106, as a function of the
stream of network events `ev` (attempt number ↦ what the network does),
the index `i` of the current attempt, the remaining retry budget and the
current backoff delay.  Returns the final outcome together with the list of
delays slept, in order.  A 2xx resolves immediately; a 429 with budget left
sleeps `delay` and reissues with budget − 1 and delay × 2 (line 80); any
other status rejects; a connection error with budget left retries the same
way (line 94), otherwise rejects. -/
def sendHttpRequest (ev : Nat → NetEvent) (i : Nat) (retries : Nat) (delay : Nat) :
    HttpResult × List Nat :=
  match ev i with
  | .response s b =>
    if 200 ≤ s ∧ s < 300 then (.success b, [])
    else if s = 429 then
      match retries with
      | 0 => (.httpError s b, [])
      | r + 1 =>
        let p := sendHttpRequest ev (i + 1) r (delay * 2)
        (p.1, delay :: p.2)
    else (.httpError s b, [])
  | .connError m =>
    match retries with
    | 0 => (.transportError m, [])
    | r + 1 =>
      let p := sendHttpRequest ev (i + 1) r (delay * 2)
      (p.1, delay :: p.2)

/-- The exponential-backoff schedule: `n` waits starting at `delay` and
doubling each retry. -/
def backoffDelays (delay : Nat) (n : Nat) : List Nat :=
  (List.range n).map (fun j => delay * 2 ^ j)

/-- The logical remote calls the orchestrator makes, one constructor per
`sendHttpRequest` call site in src/index.js. -/
inductive RemoteCall where
  | search                  -- searchJiraIssues, line 111
  | updateIssue             -- updateJiraIssue, line 126
  | sprintListFuture        -- getSprintId, line 160
  | sprintListActiveFuture  -- getIssueSprintStatus, line 179
  | membershipProbe         -- getIssueSprintStatus, line 186
  | createIssue             -- createNewJiraIssue, line 298
  | addToSprint             -- addIssueToSprint, line 304
deriving Repr, DecidableEq

/-- The `retries` argument each call site passes to `sendHttpRequest`
(`none` when the call site omits the argument, so that the parameter is
`undefined` and `retries > 0` is false on every attempt). -/
def retriesArgOf (retries : Nat) : RemoteCall → Option Nat
  | .search => some retries
  | .updateIssue => some retries
  | .sprintListFuture => none
  | .sprintListActiveFuture => none
  | .membershipProbe => none
  | .createIssue => none
  | .addToSprint => none

/-- The budget `sendHttpRequest` effectively runs with: an omitted argument
behaves like zero, since `undefined > 0` is false in JavaScript. -/
def effectiveRetries : Option Nat → Nat
  | some r => r
  | none => 0

/-! ### Data model -/

/-- The validated configuration the action runs with (src/index.js
lines 26-34). -/
structure Config where
  jiraProjectKey : String
  issueSummary : String
  issueDescription : String
  boardId : String
  sprintName : String
  retries : Nat
deriving Repr, DecidableEq

/-- An issue as returned by the search: its key and its
`fields.description`, which may be null. -/
structure JiraIssue where
  key : String
  description : Option String
deriving Repr, DecidableEq

/-- A sprint as returned by the board sprint listing. -/
structure Sprint where
  id : Nat
  name : String
  state : String
deriving Repr, DecidableEq

/-- The mutating remote calls a run can issue, in order. -/
inductive Action where
  | createIssue (summary description : String)
  | updateIssue (key description : String)
  | addToSprint (key : String) (sprintId : Nat)
deriving Repr, DecidableEq

/-- The observable outcome of a successful run: the mutations issued in
order, the `issue_key` output (if `core.setOutput` was called) and the
warnings emitted. -/
structure RunResult where
  actions : List Action
  output : Option String
  warnings : List String
deriving Repr, DecidableEq

/-- The remote service, as the responses it returns to each read query the
orchestrator makes during one run. -/
structure JiraEnv where
  /-- `response.issues` of the summary-search JQL query (line 218). -/
  searchResults : List JiraIssue
  /-- `response.values` of `GET board/{id}/sprint?state=future` (line 162). -/
  futureSprints : List Sprint
  /-- `response.values` of `GET board/{id}/sprint?state=active,future`
  (line 181). -/
  activeFutureSprints : List Sprint
  /-- Whether the membership probe (line 186) finds the given issue key in
  the sprint with the given id. -/
  memberOf : String → Nat → Bool
  /-- The key the server assigns to a `POST /issue` (line 298). -/
  newIssueKey : String
  /-- `formatDateTimeGerman(now)` (line 221), opaque here. -/
  timestamp : String

/-! ### Board/sprint resolution and membership (src/index.js lines 158-204) -/

/-- `getSprintId` from src/index.js lines 158-174: look through the
`state=future` sprint listing for an exact name match and return its id;
throw `Sprint "name" not found` otherwise. -/
def getSprintId (futureSprints : List Sprint) (sprintName : String) :
    Except String Nat :=
  match futureSprints.find? (fun s => s.name == sprintName) with
  | some sprint => .ok sprint.id
  | none => .error ("Sprint \"" ++ sprintName ++ "\" not found")

/-- `getIssueSprintStatus` from src/index.js lines 176-204: walk the
`state=active,future` sprint listing in order, probe membership per sprint,
and return the state of the first sprint containing the issue; `none` when
no sprint contains it. -/
def getIssueSprintStatus (activeFutureSprints : List Sprint)
    (isMember : Nat → Bool) : Option String :=
  (activeFutureSprints.find? (fun s => isMember s.id)).map (fun s => s.state)

/-! ### Synchronization orchestrator (src/index.js lines 213-308) -/

/-- The branch of `createOrUpdateJiraStory` taken when the search found an
existing issue (src/index.js lines 230-273). -/
def handleExisting (cfg : Config) (env : JiraEnv) (existingIssue : JiraIssue)
    (sprintId : Nat) : RunResult :=
  let existingDescription := existingIssue.description.getD ""
  let sprintStatus :=
    getIssueSprintStatus env.activeFutureSprints (env.memberOf existingIssue.key)
  if sprintStatus = some "active" then
    -- lines 235-254: fork a new issue carrying only the new content
    let newContent := getNewDescription existingDescription cfg.issueDescription
    if jsTrim newContent ≠ "" then
      { actions := [Action.createIssue cfg.issueSummary (withTrailer newContent env.timestamp),
                    Action.addToSprint env.newIssueKey sprintId],
        output := some env.newIssueKey, warnings := [] }
    else
      { actions := [], output := some existingIssue.key, warnings := [] }
  else if sprintStatus = some "future" ∨ sprintStatus = none then
    -- lines 255-270: update the existing issue when descriptions differ
    if removeTimestamp existingDescription ≠ removeTimestamp cfg.issueDescription then
      { actions := [Action.updateIssue existingIssue.key
                      (withTrailer cfg.issueDescription env.timestamp),
                    Action.addToSprint existingIssue.key sprintId],
        output := some existingIssue.key, warnings := [] }
    else
      { actions := [], output := some existingIssue.key, warnings := [] }
  else
    -- lines 271-273: unexpected sprint state, warn only (no setOutput)
    { actions := [], output := none,
      warnings := ["Unexpected sprint status: " ++ sprintStatus.getD ""] }

/-- `createOrUpdateJiraStory` from src/index.js lines 213-286: search for
open issues with the target summary, resolve the target sprint among the
board's future sprints (aborting the run when none matches, lines 224-228),
then branch on whether an issue was found and on its sprint state.  The
`if (!sprintId)` check at line 226 makes a resolved id of 0 abort as well.
An `.error` return models the thrown error reaching the outer catch: the
run fails, no mutation was issued and no output was set. -/
def createOrUpdateJiraStory (cfg : Config) (env : JiraEnv) :
    Except String RunResult :=
  let existingIssues := env.searchResults
  match getSprintId env.futureSprints cfg.sprintName with
  | .error e => .error e
  | .ok sprintId =>
    if sprintId = 0 then
      .error ("Sprint \"" ++ cfg.sprintName ++ "\" not found")
    else
      match existingIssues with
      | existingIssue :: _ => .ok (handleExisting cfg env existingIssue sprintId)
      | [] =>
        -- lines 274-281: no existing issue, create and assign a new one
        .ok { actions := [Action.createIssue cfg.issueSummary
                            (withTrailer cfg.issueDescription env.timestamp),
                          Action.addToSprint env.newIssueKey sprintId],
              output := some env.newIssueKey, warnings := [] }

/-- The reconciler delta worded as the specification words it: the incoming
lines, in original order, that do not appear verbatim anywhere in the
existing text's line set, joined back with line breaks.  Kept separate from
`getNewDescription` (which is transcribed from the code) so the two can be
compared. -/
def diffNewLinesSpec (existing incoming : String) : String :=
  joinLines ((linesOf incoming).filter (fun line => decide (line ∉ linesOf existing)))

/-! ### Concrete configurations and environments used by the closed
witnesses and counterexamples below -/

def cfgC2 : Config :=
  { jiraProjectKey := "PRJ", issueSummary := "Deploy X", issueDescription := "desc",
    boardId := "7", sprintName := "Sprint 1", retries := 3 }

def envC2 : JiraEnv :=
  { searchResults := [{ key := "EX-2", description := some "desc" }],
    futureSprints := [{ id := 4, name := "Sprint 1", state := "future" }],
    activeFutureSprints := [],
    memberOf := fun _ _ => false,
    newIssueKey := "NEW-2", timestamp := "t" }

def cfgC3 : Config :=
  { jiraProjectKey := "PRJ", issueSummary := "Deploy X", issueDescription := "same",
    boardId := "7", sprintName := "Sprint 1", retries := 3 }

def envC3eq : JiraEnv :=
  { searchResults := [{ key := "EX-3", description := some "same" }],
    futureSprints := [{ id := 4, name := "Sprint 1", state := "future" }],
    activeFutureSprints := [{ id := 4, name := "Sprint 1", state := "future" }],
    memberOf := fun _ sid => sid == 4,
    newIssueKey := "NEW-3", timestamp := "t" }

def envC3diff : JiraEnv :=
  { searchResults := [{ key := "EX-3", description := some "old" }],
    futureSprints := [{ id := 4, name := "Sprint 1", state := "future" }],
    activeFutureSprints := [{ id := 4, name := "Sprint 1", state := "future" }],
    memberOf := fun _ sid => sid == 4,
    newIssueKey := "NEW-3", timestamp := "t" }

def cfgC4 : Config :=
  { jiraProjectKey := "PRJ", issueSummary := "Deploy X", issueDescription := "a\n ",
    boardId := "7", sprintName := "Sprint 1", retries := 3 }

def cfgC4fork : Config :=
  { jiraProjectKey := "PRJ", issueSummary := "Deploy X", issueDescription := "a\nb",
    boardId := "7", sprintName := "Sprint 1", retries := 3 }

def envC4 : JiraEnv :=
  { searchResults := [{ key := "EX-1", description := some "a" }],
    futureSprints := [{ id := 2, name := "Sprint 1", state := "future" }],
    activeFutureSprints := [{ id := 1, name := "S0", state := "active" },
                            { id := 2, name := "Sprint 1", state := "future" }],
    memberOf := fun _ sid => sid == 1,
    newIssueKey := "NEW-1", timestamp := "t" }

def cfgC9 : Config :=
  { jiraProjectKey := "PRJ", issueSummary := "Deploy X", issueDescription := "d2",
    boardId := "7", sprintName := "Sprint 1", retries := 3 }

def envC9 : JiraEnv :=
  { searchResults := [{ key := "EX-9", description := some "d" }],
    futureSprints := [{ id := 2, name := "Sprint 1", state := "future" }],
    activeFutureSprints := [{ id := 5, name := "Old", state := "closed" }],
    memberOf := fun _ sid => sid == 5,
    newIssueKey := "NEW-9", timestamp := "t" }

def cfgC10 : Config :=
  { jiraProjectKey := "PRJ", issueSummary := "Deploy X", issueDescription := "same",
    boardId := "7", sprintName := "Sprint 1", retries := 3 }

def envC10 : JiraEnv :=
  { searchResults := [{ key := "EX-10", description := some "same" }],
    futureSprints := [],
    activeFutureSprints := [{ id := 3, name := "Sprint 1", state := "active" }],
    memberOf := fun _ _ => true,
    newIssueKey := "NEW-10", timestamp := "t" }

end JiraSync

deriving instance DecidableEq for Except

namespace JiraSync

/-! ### Supporting lemmas -/

/-- One 429 retry: with budget left, the call sleeps the current delay and
reissues with one unit less and a doubled delay. -/
theorem send_429_step (ev : Nat → NetEvent) (i r d : Nat) (b : String)
    (h : ev i = NetEvent.response 429 b) :
    sendHttpRequest ev i (r + 1) d =
      ((sendHttpRequest ev (i + 1) r (d * 2)).1,
        d :: (sendHttpRequest ev (i + 1) r (d * 2)).2) := by
  conv_lhs => rw [sendHttpRequest.eq_def, h]
  norm_num

/-- Budget exhausted on a 429: the call rejects with the status and body. -/
theorem send_429_exhausted (ev : Nat → NetEvent) (i d : Nat) (b : String)
    (h : ev i = NetEvent.response 429 b) :
    sendHttpRequest ev i 0 d = (HttpResult.httpError 429 b, []) := by
  conv_lhs => rw [sendHttpRequest.eq_def, h]
  norm_num

/-- A 2xx response resolves immediately, with no sleeps. -/
theorem send_success (ev : Nat → NetEvent) (i r d : Nat) (s : Nat) (body : String)
    (h : ev i = NetEvent.response s body) (h2 : 200 ≤ s ∧ s < 300) :
    sendHttpRequest ev i r d = (HttpResult.success body, []) := by
  conv_lhs => rw [sendHttpRequest.eq_def, h]
  simp [h2]

/-- One connection-error retry: with budget left, the call sleeps and
reissues with one unit less and a doubled delay. -/
theorem send_conn_step (ev : Nat → NetEvent) (i r d : Nat) (m : String)
    (h : ev i = NetEvent.connError m) :
    sendHttpRequest ev i (r + 1) d =
      ((sendHttpRequest ev (i + 1) r (d * 2)).1,
        d :: (sendHttpRequest ev (i + 1) r (d * 2)).2) := by
  conv_lhs => rw [sendHttpRequest.eq_def, h]

/-- The backoff schedule unfolds one step at a time with a doubled base. -/
theorem backoffDelays_succ (d n : Nat) :
    backoffDelays d (n + 1) = d :: backoffDelays (d * 2) n := by
  unfold backoffDelays
  rw [List.range_succ_eq_map]
  simp only [List.map_cons, List.map_map, pow_zero, Nat.mul_one]
  congr 1
  apply List.map_congr_left
  intro j _
  simp [Function.comp, pow_succ]
  ring

/-- When the search found an existing issue and the target sprint resolved
to a nonzero id, the run reaches the existing-issue branch. -/
theorem createOrUpdate_ok_existing (cfg : Config) (env : JiraEnv)
    (e : JiraIssue) (rest : List JiraIssue) (sid : Nat)
    (hsearch : env.searchResults = e :: rest)
    (hsid : getSprintId env.futureSprints cfg.sprintName = .ok sid)
    (h0 : sid ≠ 0) :
    createOrUpdateJiraStory cfg env = .ok (handleExisting cfg env e sid) := by
  unfold createOrUpdateJiraStory
  rw [hsearch, hsid]
  simp [h0]

/-- A failed sprint resolution aborts the whole run with its error. -/
theorem createOrUpdate_sprint_error (cfg : Config) (env : JiraEnv) (msg : String)
    (hg : getSprintId env.futureSprints cfg.sprintName = .error msg) :
    createOrUpdateJiraStory cfg env = .error msg := by
  unfold createOrUpdateJiraStory
  rw [hg]

/-- A resolved sprint id of zero also aborts the run (the falsy check at
src/index.js line 226). -/
theorem createOrUpdate_sprint_zero (cfg : Config) (env : JiraEnv)
    (hg : getSprintId env.futureSprints cfg.sprintName = .ok 0) :
    createOrUpdateJiraStory cfg env =
      .error ("Sprint \"" ++ cfg.sprintName ++ "\" not found") := by
  unfold createOrUpdateJiraStory
  rw [hg]
  rfl

/-- When the trailer regex matches nowhere in a string, removing the
timestamp leaves the string unchanged. -/
theorem removeTimestampL_of_no_match (l : List Char) (h : hasTrailerMatch l = false) :
    removeTimestampL l = l := by
  induction l with
  | nil => rfl
  | cons c cs ih =>
    rw [hasTrailerMatch, Bool.or_eq_false_iff] at h
    simp [removeTimestampL, h.1, ih h.2]

/-- Boolean list containment agrees with propositional membership. -/
theorem contains_eq_decide_mem (l : List String) (a : String) :
    l.contains a = decide (a ∈ l) := by
  induction l with
  | nil => rfl
  | cons x xs ih => by_cases h : a = x <;> simp [h, ih]

/-! ### Claim theorems -/

/-- Claim C1: `equalModuloTrailer(d, withTrailer(d, t))` should be true for
every description `d` and timestamp `t`, but it fails on the code.  The
orchestrator appends the German trailer `Zuletzt aktualisiert:` while
`removeTimestamp` strips only the English form `Last updated:`, so the
trailer the system writes is never excluded from the comparison.  This
theorem evaluates the code at the failing input. -/
theorem trailer_roundtrip_fails :
    equalModuloTrailer "Hello" (withTrailer "Hello" "11.10.2026, 12:00:00") = false := by
  decide

/-- Claim C2: in every run where the issue search returns at least one
matching open issue and the orchestrator does not take the ForkNew branch
(the found issue is not in an active sprint with a nonempty reconciled
delta), no issue-creation call is made, so a second simultaneously-open
issue with the same summary is never created. -/
theorem no_create_when_not_forking (cfg : Config) (env : JiraEnv)
    (e : JiraIssue) (rest : List JiraIssue) (r : RunResult)
    (hsearch : env.searchResults = e :: rest)
    (hnofork : ¬ (getIssueSprintStatus env.activeFutureSprints (env.memberOf e.key) = some "active" ∧
        jsTrim (getNewDescription (e.description.getD "") cfg.issueDescription) ≠ ""))
    (hr : createOrUpdateJiraStory cfg env = .ok r) :
    ∀ s d, Action.createIssue s d ∉ r.actions := by
  intro s d
  cases hg : getSprintId env.futureSprints cfg.sprintName with
  | error msg => rw [createOrUpdate_sprint_error cfg env msg hg] at hr; simp at hr
  | ok sid =>
    by_cases h0 : sid = 0
    · subst h0
      rw [createOrUpdate_sprint_zero cfg env hg] at hr
      simp at hr
    · rw [createOrUpdate_ok_existing cfg env e rest sid hsearch hg h0] at hr
      have hre : handleExisting cfg env e sid = r := Except.ok.inj hr
      subst hre
      unfold handleExisting
      by_cases hact : getIssueSprintStatus env.activeFutureSprints (env.memberOf e.key) = some "active"
      · have htrim : jsTrim (getNewDescription (e.description.getD "") cfg.issueDescription) = "" := by
          by_contra hh
          exact hnofork ⟨hact, hh⟩
        simp [hact, htrim]
      · by_cases hfut : getIssueSprintStatus env.activeFutureSprints (env.memberOf e.key) = some "future" ∨
            getIssueSprintStatus env.activeFutureSprints (env.memberOf e.key) = none
        · by_cases hdiff : removeTimestamp (e.description.getD "") ≠ removeTimestamp cfg.issueDescription
          · simp [hact, hfut, hdiff]
          · simp [hact, hfut, hdiff]
        · simp [hact, hfut]

/-- Witness for C2: a concrete run that finds an existing issue, does not
fork, and issues no create call. -/
theorem no_create_witness :
    Action.createIssue "Deploy X" "body" ∉
      ({ actions := [], output := some "EX-2", warnings := [] } : RunResult).actions :=
  no_create_when_not_forking cfgC2 envC2 { key := "EX-2", description := some "desc" } []
    { actions := [], output := some "EX-2", warnings := [] }
    rfl (by decide) (by decide) "Deploy X" "body"

/-- Claim C3: when an existing issue matches and its sprint state resolves
to "future" or to no sprint at all, then: if the incoming description
equals the existing one modulo trailer, no mutation is issued and the
emitted issue-key output is the existing key; otherwise the issue's
description is overwritten with the full incoming description plus a fresh
trailer and the issue is reassigned to the target sprint. -/
theorem future_branch_update_or_noop (cfg : Config) (env : JiraEnv)
    (e : JiraIssue) (rest : List JiraIssue) (sid : Nat)
    (hsearch : env.searchResults = e :: rest)
    (hsid : getSprintId env.futureSprints cfg.sprintName = .ok sid)
    (h0 : sid ≠ 0)
    (hst : getIssueSprintStatus env.activeFutureSprints (env.memberOf e.key) = some "future" ∨
        getIssueSprintStatus env.activeFutureSprints (env.memberOf e.key) = none) :
    (removeTimestamp (e.description.getD "") = removeTimestamp cfg.issueDescription →
      createOrUpdateJiraStory cfg env =
        .ok { actions := [], output := some e.key, warnings := [] }) ∧
    (removeTimestamp (e.description.getD "") ≠ removeTimestamp cfg.issueDescription →
      createOrUpdateJiraStory cfg env =
        .ok { actions := [Action.updateIssue e.key (withTrailer cfg.issueDescription env.timestamp),
                          Action.addToSprint e.key sid],
              output := some e.key, warnings := [] }) := by
  have hok := createOrUpdate_ok_existing cfg env e rest sid hsearch hsid h0
  rcases hst with hstv | hstv <;>
    constructor <;> intro hd <;> rw [hok] <;> unfold handleExisting <;> simp [hstv, hd]

/-- Witness for C3: a concrete no-op run (equal descriptions) and a
concrete update run (differing descriptions). -/
theorem future_branch_witness :
    createOrUpdateJiraStory cfgC3 envC3eq =
      .ok { actions := [], output := some "EX-3", warnings := [] } ∧
    createOrUpdateJiraStory cfgC3 envC3diff =
      .ok { actions := [Action.updateIssue "EX-3" (withTrailer "same" "t"),
                        Action.addToSprint "EX-3" 4],
            output := some "EX-3", warnings := [] } :=
  ⟨(future_branch_update_or_noop cfgC3 envC3eq { key := "EX-3", description := some "same" } [] 4
      rfl rfl (by decide) (Or.inl rfl)).1 (by decide),
   (future_branch_update_or_noop cfgC3 envC3diff { key := "EX-3", description := some "old" } [] 4
      rfl rfl (by decide) (Or.inl rfl)).2 (by decide)⟩

/-- Counterexample to C4 as stated: with existing description `"a"` and
incoming description `"a\n "`, the incoming text contains a line (a single
space) absent from the existing line set, yet no second issue is created —
the fork gate tests `newContent.trim() !== ""`, and the whitespace-only
delta trims to empty, so the run no-ops and re-emits the existing key. -/
theorem fork_whitespace_line_cex :
    (" " ∈ linesOf "a\n " ∧ " " ∉ linesOf "a") ∧
    createOrUpdateJiraStory cfgC4 envC4 =
      .ok { actions := [], output := some "EX-1", warnings := [] } := by
  decide

/-- Claim C4 (amended): when an existing issue matches and is in an active
sprint, a second issue is created containing only the new lines (plus
trailer), assigned to the target sprint, with the original issue untouched
and the output the new key — provided the joined new lines do not trim to
the empty string; when the delta trims to empty (in particular when no new
line exists), nothing is created or updated and the output is the existing
issue's key. -/
theorem active_branch_fork_or_noop (cfg : Config) (env : JiraEnv)
    (e : JiraIssue) (rest : List JiraIssue) (sid : Nat)
    (hsearch : env.searchResults = e :: rest)
    (hsid : getSprintId env.futureSprints cfg.sprintName = .ok sid)
    (h0 : sid ≠ 0)
    (hact : getIssueSprintStatus env.activeFutureSprints (env.memberOf e.key) = some "active") :
    (jsTrim (getNewDescription (e.description.getD "") cfg.issueDescription) ≠ "" →
      createOrUpdateJiraStory cfg env =
        .ok { actions := [Action.createIssue cfg.issueSummary
                 (withTrailer (getNewDescription (e.description.getD "") cfg.issueDescription)
                   env.timestamp),
               Action.addToSprint env.newIssueKey sid],
              output := some env.newIssueKey, warnings := [] }) ∧
    (jsTrim (getNewDescription (e.description.getD "") cfg.issueDescription) = "" →
      createOrUpdateJiraStory cfg env =
        .ok { actions := [], output := some e.key, warnings := [] }) := by
  have hok := createOrUpdate_ok_existing cfg env e rest sid hsearch hsid h0
  constructor <;> intro hd <;> rw [hok] <;> unfold handleExisting <;> simp [hact, hd]

/-- Witness for C4 (amended): a concrete fork run (new line `"b"`) and a
concrete no-op run (whitespace-only delta). -/
theorem active_branch_witness :
    createOrUpdateJiraStory cfgC4fork envC4 =
      .ok { actions := [Action.createIssue "Deploy X" (withTrailer "b" "t"),
                        Action.addToSprint "NEW-1" 2],
            output := some "NEW-1", warnings := [] } ∧
    createOrUpdateJiraStory cfgC4 envC4 =
      .ok { actions := [], output := some "EX-1", warnings := [] } :=
  ⟨(active_branch_fork_or_noop cfgC4fork envC4 { key := "EX-1", description := some "a" } [] 2
      rfl rfl (by decide) rfl).1 (by decide),
   (active_branch_fork_or_noop cfgC4 envC4 { key := "EX-1", description := some "a" } [] 2
      rfl rfl (by decide) rfl).2 (by decide)⟩

/-- Claim C5: on repeated 429 responses the transport retries exactly
min(budget, attempts needed) times with a strictly doubling backoff: with
an all-429 stream it sleeps the full geometric schedule of length equal to
the budget and then fails with the 429 status and body; when a 2xx arrives
after `k ≤ budget` rate-limited attempts it succeeds after exactly `k`
doubling delays. -/
theorem transport_429_retries (ev : Nat → NetEvent) (b body : String) (i n k d : Nat) :
    ((∀ j, ev j = NetEvent.response 429 b) →
      sendHttpRequest ev i n d = (HttpResult.httpError 429 b, backoffDelays d n)) ∧
    (k ≤ n → (∀ j, j < k → ev (i + j) = NetEvent.response 429 b) →
      ev (i + k) = NetEvent.response 200 body →
      sendHttpRequest ev i n d = (HttpResult.success body, backoffDelays d k)) := by
  constructor
  · intro hall
    induction n generalizing i d with
    | zero => rw [send_429_exhausted ev i d b (hall i)]; rfl
    | succ m ih =>
      rw [send_429_step ev i m d b (hall i), ih (i + 1) (d * 2), backoffDelays_succ]
  · induction k generalizing i d n with
    | zero =>
      intro _ _ hsucc
      rw [Nat.add_zero] at hsucc
      rw [send_success ev i n d 200 body hsucc (by norm_num)]
      rfl
    | succ k ih =>
      intro hkn h429 hsucc
      match n, hkn with
      | n + 1, hkn =>
        have h0 : ev i = NetEvent.response 429 b := by
          have := h429 0 (Nat.succ_pos k)
          rwa [Nat.add_zero] at this
        rw [send_429_step ev i n d b h0, backoffDelays_succ]
        have h429x : ∀ j, j < k → ev (i + 1 + j) = NetEvent.response 429 b := by
          intro j hj
          rw [show i + 1 + j = i + (j + 1) by omega]
          exact h429 (j + 1) (by omega)
        have hsuccx : ev (i + 1 + k) = NetEvent.response 200 body := by
          rw [show i + 1 + k = i + (k + 1) by omega]
          exact hsucc
        rw [ih (i + 1) n (d * 2) (by omega) h429x hsuccx]

/-- Witness for C5: a stream of nothing but 429s exhausts a budget of 3
with delays 1000, 2000, 4000 and fails with the 429 body; a stream of two
429s then a 200 succeeds after delays 1000, 2000. -/
theorem transport_429_witness :
    sendHttpRequest (fun _ => NetEvent.response 429 "limit") 0 3 1000 =
      (HttpResult.httpError 429 "limit", [1000, 2000, 4000]) ∧
    sendHttpRequest
        (fun j => if j < 2 then NetEvent.response 429 "limit" else NetEvent.response 200 "ok")
        0 3 1000 =
      (HttpResult.success "ok", [1000, 2000]) := by
  constructor
  · have h := (transport_429_retries (fun _ => NetEvent.response 429 "limit")
      "limit" "" 0 3 0 1000).1 (fun j => rfl)
    rw [h]
    decide
  · have h := (transport_429_retries
      (fun j => if j < 2 then NetEvent.response 429 "limit" else NetEvent.response 200 "ok")
      "limit" "ok" 0 3 2 1000).2 (by omega) (fun j hj => by simp [hj]) (by norm_num)
    rw [h]
    decide

/-- Counterexample to C6 as stated: the sprint-listing call inside
`getSprintId` does not carry the configured retry budget — its call site
omits the `retries` argument entirely. -/
theorem retry_budget_not_universal_cex :
    retriesArgOf 3 RemoteCall.sprintListFuture ≠ some 3 := by decide

/-- Claim C6 (amended): only the issue-search and issue-update call sites
pass the configured retry budget to the transport; the sprint-listing,
membership-probe, issue-create and sprint-assignment call sites omit the
argument, which behaves as a zero budget (`undefined > 0` is false); and
each retry, whether triggered by a 429 or by a connection error, consumes
exactly one unit of the per-call budget while doubling the delay. -/
theorem retry_budget_per_call (r : Nat) :
    retriesArgOf r RemoteCall.search = some r ∧
    retriesArgOf r RemoteCall.updateIssue = some r ∧
    retriesArgOf r RemoteCall.sprintListFuture = none ∧
    retriesArgOf r RemoteCall.sprintListActiveFuture = none ∧
    retriesArgOf r RemoteCall.membershipProbe = none ∧
    retriesArgOf r RemoteCall.createIssue = none ∧
    retriesArgOf r RemoteCall.addToSprint = none ∧
    effectiveRetries none = 0 ∧
    (∀ ev i d b, ev i = NetEvent.response 429 b →
      sendHttpRequest ev i (r + 1) d =
        ((sendHttpRequest ev (i + 1) r (d * 2)).1,
          d :: (sendHttpRequest ev (i + 1) r (d * 2)).2)) ∧
    (∀ ev i d m, ev i = NetEvent.connError m →
      sendHttpRequest ev i (r + 1) d =
        ((sendHttpRequest ev (i + 1) r (d * 2)).1,
          d :: (sendHttpRequest ev (i + 1) r (d * 2)).2)) :=
  ⟨rfl, rfl, rfl, rfl, rfl, rfl, rfl, rfl,
    fun ev i d b h => send_429_step ev i r d b h,
    fun ev i d m h => send_conn_step ev i r d m h⟩

/-- Witness for C6 (amended): the search call carries the budget, and a
connection error with budget 4 consumes exactly one unit. -/
theorem retry_budget_per_call_witness :
    retriesArgOf 3 RemoteCall.search = some 3 ∧
    sendHttpRequest (fun _ => NetEvent.connError "boom") 0 4 1000 =
      ((sendHttpRequest (fun _ => NetEvent.connError "boom") 1 3 2000).1,
        1000 :: (sendHttpRequest (fun _ => NetEvent.connError "boom") 1 3 2000).2) :=
  ⟨(retry_budget_per_call 3).1,
    (retry_budget_per_call 3).2.2.2.2.2.2.2.2.2 (fun _ => NetEvent.connError "boom") 0 1000 "boom" rfl⟩

/-- Counterexample to C7 as stated: on a text that stacks two trailers the
regex removes only the last one per application, so applying `stripTrailer`
twice differs from applying it once. -/
theorem stripTrailer_not_idempotent_cex :
    removeTimestamp (removeTimestamp "A\n\nLast updated: 1\n\nLast updated: 2") ≠
      removeTimestamp "A\n\nLast updated: 1\n\nLast updated: 2" := by
  decide

/-- Claim C7 (amended): `stripTrailer` is idempotent on every text whose
once-stripped form no longer contains a trailer match — in particular on
any text carrying at most one trailer; only texts stacking two trailers
lose one per application. -/
theorem stripTrailer_idempotent_on_single_trailer (x : String)
    (h : hasTrailerMatch (removeTimestamp x).data = false) :
    removeTimestamp (removeTimestamp x) = removeTimestamp x :=
  congrArg String.mk (removeTimestampL_of_no_match ((removeTimestamp x).data) h)

/-- Witness for C7 (amended): a text with a single trailer strips to a
trailer-free form and is a fixed point of the second application. -/
theorem stripTrailer_idempotent_witness :
    hasTrailerMatch (removeTimestamp "abc\n\nLast updated: 1").data = false ∧
    removeTimestamp (removeTimestamp "abc\n\nLast updated: 1") =
      removeTimestamp "abc\n\nLast updated: 1" :=
  ⟨by decide, stripTrailer_idempotent_on_single_trailer "abc\n\nLast updated: 1" (by decide)⟩

/-- Claim C8: `getNewDescription` returns exactly the incoming lines, in
their original order, that do not appear verbatim anywhere in the existing
text's line set, joined back with line breaks — it coincides with the
specification-worded `diffNewLinesSpec` — and the delta of a text against
itself is empty. -/
theorem diffNewLines_matches_spec (existing incoming : String) :
    getNewDescription existing incoming = diffNewLinesSpec existing incoming ∧
    getNewDescription existing existing = "" := by
  constructor
  · show joinLines ((linesOf incoming).filter (fun line => !((linesOf existing).contains line))) =
      joinLines ((linesOf incoming).filter (fun line => decide (line ∉ linesOf existing)))
    congr 1
    apply List.filter_congr
    intro a _
    rw [contains_eq_decide_mem]
    by_cases h : a ∈ linesOf existing <;> simp [h]
  · show joinLines ((linesOf existing).filter (fun line => !((linesOf existing).contains line))) = ""
    have hnil : (linesOf existing).filter (fun line => !((linesOf existing).contains line)) = [] := by
      apply List.filter_eq_nil_iff.mpr
      intro a ha
      simp [contains_eq_decide_mem, ha]
    rw [hnil]
    rfl

/-- Counterexample to C9 as stated: with an existing issue whose resolved
sprint state is `"closed"`, the run warns and performs no mutation, but it
also produces no issue-key output — the warning branch returns without
calling `setOutput`, so the claim's "still produces an issue-key output"
fails. -/
theorem unexpected_state_no_output_cex :
    createOrUpdateJiraStory cfgC9 envC9 =
      .ok { actions := [], output := none,
            warnings := ["Unexpected sprint status: closed"] } := by
  decide

/-- Claim C9 (amended): when an existing issue matches and its resolved
sprint state is a string other than "active" or "future", the run surfaces
a non-fatal warning and performs no create or update mutation, but it emits
no issue-key output. -/
theorem unexpected_state_warns_no_mutation (cfg : Config) (env : JiraEnv)
    (e : JiraIssue) (rest : List JiraIssue) (sid : Nat) (st : String)
    (hsearch : env.searchResults = e :: rest)
    (hsid : getSprintId env.futureSprints cfg.sprintName = .ok sid)
    (h0 : sid ≠ 0)
    (hst : getIssueSprintStatus env.activeFutureSprints (env.memberOf e.key) = some st)
    (hne1 : st ≠ "active") (hne2 : st ≠ "future") :
    createOrUpdateJiraStory cfg env =
      .ok { actions := [], output := none,
            warnings := ["Unexpected sprint status: " ++ st] } := by
  have hok := createOrUpdate_ok_existing cfg env e rest sid hsearch hsid h0
  rw [hok]
  unfold handleExisting
  simp [hst, hne1, hne2]

/-- Witness for C9 (amended): the concrete closed-sprint run warns without
mutating and sets no output. -/
theorem unexpected_state_witness :
    createOrUpdateJiraStory cfgC9 envC9 =
      .ok { actions := [], output := none,
            warnings := ["Unexpected sprint status: " ++ "closed"] } :=
  unexpected_state_warns_no_mutation cfgC9 envC9 { key := "EX-9", description := some "d" } []
    2 "closed" rfl rfl (by decide) rfl (by decide) (by decide)

/-- Claim C10: the target sprint is resolved, among future-state sprints
only, before any create/update/fork/no-op branch is taken; when no
future-state sprint on the board matches the configured name, the run
aborts with the sprint-not-found error and issues no mutation — even when
an existing issue matches and the outcome would otherwise have been a
no-op re-emitting the existing key. -/
theorem sprint_resolution_gate (cfg : Config) (env : JiraEnv) (boardSprints : List Sprint)
    (hresp : env.futureSprints = boardSprints.filter (fun s => s.state == "future"))
    (hnone : ∀ s ∈ boardSprints, s.state = "future" → s.name ≠ cfg.sprintName) :
    createOrUpdateJiraStory cfg env =
      .error ("Sprint \"" ++ cfg.sprintName ++ "\" not found") := by
  have hfind : getSprintId env.futureSprints cfg.sprintName =
      .error ("Sprint \"" ++ cfg.sprintName ++ "\" not found") := by
    unfold getSprintId
    rw [hresp]
    have hn : (boardSprints.filter (fun s => s.state == "future")).find?
        (fun s => s.name == cfg.sprintName) = none := by
      apply List.find?_eq_none.mpr
      intro s hs
      have hm := List.mem_filter.mp hs
      have hstate : s.state = "future" := by simpa using hm.2
      simpa using hnone s hm.1 hstate
    rw [hn]
  unfold createOrUpdateJiraStory
  rw [hfind]

/-- Witness for C10: a board whose only sprint has the requested name but
state "active", while a matching issue with an identical description exists
(the would-be no-op case): the run still aborts with the sprint-not-found
error. -/
theorem sprint_resolution_gate_witness :
    createOrUpdateJiraStory cfgC10 envC10 = .error "Sprint \"Sprint 1\" not found" :=
  sprint_resolution_gate cfgC10 envC10 [{ id := 3, name := "Sprint 1", state := "active" }]
    rfl (by decide)

end JiraSync
